import Mathlib

/-!
# Verification of the RoboSim conversion engine

Shallow embedding of `src/api/main.py` (the `upload_dataset` and
`convert_to_parquet` endpoints): episode-to-row conversion, schema inference
from the first row, row-to-column transposition, sidecar metadata synthesis
(`info.json`, `episodes.jsonl`, `tasks.jsonl`), and the direct-conversion
response.

Modelling notes:
* Numeric vector elements and timestamps are modelled as rationals; the claims
  under study concern lengths, presence, ordering and index assignment, never
  floating-point rounding.
* Python dicts with the recognised optional keys (`jointPositions`, `image`,
  `targetPositions`, `timestamp`, `languageInstruction`) are modelled as
  structures of `Option` fields; a missing key is `none`.
* The Python `set` used for task deduplication (`tasks = set()`) has an
  unspecified iteration order.  The enumeration order the set happens to
  produce is therefore passed to `upload_dataset` as an explicit parameter
  `order`; theorems constrain it to be a duplicate-free permutation of the
  distinct task texts, which is exactly what iterating a CPython set yields.
* `pyarrow`'s `pa.array` with a fixed-size-list type raises an invalid-length
  error when a present list has the wrong length; that library behaviour is
  modelled by `buildTable`.  The surrounding `try/except` turns any such
  exception into a generic HTTP 500, modelled as `ApiError.arrowInvalidLength`.
  The HuggingFace authentication/repo/upload collaborators are out of scope
  (spec §1) and are not modelled.
* Parquet byte serialisation is external library output; it enters the
  embedding as an abstract `write : ColumnTable → List Nat` parameter.  The
  `.hex()` call applied to those bytes is modelled concretely by `bytesHex`.
-/

set_option maxRecDepth 8192

namespace RoboSim

/-- The `observation` field bag of a frame (`frame.get("observation", {})`):
the recognised keys are `jointPositions` (a numeric vector) and `image`
(an opaque blob). -/
structure Observation where
  jointPositions : Option (List Rat)
  image : Option (List Nat)
deriving DecidableEq, Repr

/-- The `action` field bag of a frame (`frame.get("action", {})`): the
recognised keys are `jointPositions` and `targetPositions`. -/
structure ActionBag where
  jointPositions : Option (List Rat)
  targetPositions : Option (List Rat)
deriving DecidableEq, Repr

/-- One frame dict: optional `timestamp` plus the two field bags. -/
structure Frame where
  timestamp : Option Rat
  observation : Observation
  action : ActionBag
deriving DecidableEq, Repr

/-- One episode of the request: `episodeIndex`, the ordered frame list, and
the `metadata` dict of which only the `languageInstruction` key is read. -/
structure Episode where
  episodeIndex : Int
  frames : List Frame
  languageInstruction : Option String
deriving DecidableEq, Repr

/-- The caller-supplied `DatasetMetadata` (only `robotType` and `fps` are
read when synthesising `info.json`; the declared totals are ignored there). -/
structure DatasetMetadata where
  robotType : String
  totalFrames : Int
  totalEpisodes : Int
  fps : Nat
deriving DecidableEq, Repr

/-- A cell value of a column: int64 scalar, float64 scalar, float vector,
or opaque blob. -/
inductive Val where
  | i (n : Int)
  | f (q : Rat)
  | vec (v : List Rat)
  | blob (b : List Nat)
deriving DecidableEq, Repr

/-- A column table: field names paired with their entry lists; `none` is a
null cell. -/
abbrev ColumnTable := List (String × List (Option Val))

/-- The failures the two endpoints can surface: the untyped pyarrow
invalid-length exception (HTTP 500 via the catch-all) and the
"No frames to convert" rejection (HTTP 400). -/
inductive ApiError where
  | arrowInvalidLength
  | emptyInput
deriving DecidableEq, Repr

/-- `episode.metadata.get("languageInstruction", "manipulation task")`. -/
def taskOf (ep : Episode) : String :=
  ep.languageInstruction.getD "manipulation task"

/-- First-seen deduplication of a list of task texts: the contents of the
Python `tasks` set, listed in insertion order. -/
def firstSeenAux (seen : List String) : List String → List String
  | [] => []
  | t :: ts => if t ∈ seen then firstSeenAux seen ts
               else t :: firstSeenAux (t :: seen) ts

/-- The distinct task texts of an episode list, in first-seen order. -/
def firstSeenTasks (episodes : List Episode) : List String :=
  firstSeenAux [] (episodes.map taskOf)

/-- Total frame count, `sum(len(ep.frames) for ep in request.episodes)`. -/
def totalFrames (episodes : List Episode) : Nat :=
  (episodes.map fun ep => ep.frames.length).sum

/-! ## Rows of the upload path (`upload_dataset`, lines 140-164) -/

/-- One row dict of the upload path.  The four scalar keys are always set;
`task_index` is the literal `0` the code writes ("Single task for now").
The optional keys model conditional insertion into the row dict. -/
structure Row where
  episode_index : Int
  frame_index : Nat
  timestamp : Rat
  task_index : Nat
  observationState : Option (List Rat)
  observationImage : Option (List Nat)
  action : Option (List Rat)
deriving DecidableEq, Repr

/-- `action["jointPositions"]` if present, `elif` `action["targetPositions"]`. -/
def selectAction (a : ActionBag) : Option (List Rat) :=
  match a.jointPositions with
  | some v => some v
  | none => a.targetPositions

/-- Builds the row dict for one frame of the upload path. -/
def mkRow (epIdx : Int) (frameIdx : Nat) (fr : Frame) : Row :=
  { episode_index := epIdx
    frame_index := frameIdx
    timestamp := fr.timestamp.getD ((frameIdx : Rat) / 30)
    task_index := 0
    observationState := fr.observation.jointPositions
    observationImage := fr.observation.image
    action := selectAction fr.action }

/-- The rows one episode contributes, in `enumerate(episode.frames)` order. -/
def rowsOfEpisode (ep : Episode) : List Row :=
  ep.frames.enum.map fun p => mkRow ep.episodeIndex p.1 p.2

/-- `all_rows` of the upload path: every episode's rows, episodes in order. -/
def allRows (episodes : List Episode) : List Row :=
  episodes.flatMap rowsOfEpisode

/-! ## Schema inference and transposition (upload path, lines 167-216) -/

/-- Dict lookup on a row, keyed by the field names the schema can mention. -/
def Row.getField (r : Row) : String → Option Val
  | "episode_index" => some (Val.i r.episode_index)
  | "frame_index" => some (Val.i (r.frame_index : Int))
  | "timestamp" => some (Val.f r.timestamp)
  | "task_index" => some (Val.i (r.task_index : Int))
  | "observation.state" => r.observationState.map Val.vec
  | "action" => r.action.map Val.vec
  | _ => none

/-- The four always-present scalar schema fields. -/
def scalarFieldNames : List String :=
  ["episode_index", "frame_index", "timestamp", "task_index"]

/-- The fixed-size-vector schema fields inferred from the first row
(`sample_row = all_rows[0]`): name and declared dimension. -/
def vecFields (sample : Row) : List (String × Nat) :=
  (match sample.observationState with
   | some v => [("observation.state", v.length)]
   | none => []) ++
  (match sample.action with
   | some v => [("action", v.length)]
   | none => [])

/-- The transposed column for one field: one entry per row, `none` when the
row dict lacks the key (lines 186-197). -/
def column (rows : List Row) (name : String) : List (Option Val) :=
  rows.map fun r => r.getField name

/-- `pa.array` acceptance of one cell of a fixed-size-list column: a present
vector must have exactly the declared length; a null cell is accepted. -/
def entryOk (dim : Nat) : Option Val → Bool
  | some (Val.vec v) => v.length == dim
  | _ => true

/-- `pa.array` acceptance for a fixed-size-list column: every present vector
must have exactly the declared length. -/
def checkFixedList (dim : Nat) (entries : List (Option Val)) : Bool :=
  entries.all (entryOk dim)

/-- Builds the pyarrow table of the upload path from a non-empty row list
with first row `sample`.  Raises the invalid-length error if any present
vector disagrees with its inferred dimension; otherwise keeps, in schema
order, every field whose column list is non-empty (the truthiness guard
of line 203). -/
def buildTable (sample : Row) (rows : List Row) : Except ApiError ColumnTable :=
  if (vecFields sample).all (fun p => checkFixedList p.2 (column rows p.1)) then
    .ok (((scalarFieldNames ++ (vecFields sample).map Prod.fst).filter
            (fun n => !(column rows n).isEmpty)).map
          fun n => (n, column rows n))
  else
    .error .arrowInvalidLength

/-! ## Sidecar metadata (upload path, lines 134-138 and 218-251) -/

/-- One line of `meta/episodes.jsonl`. -/
structure EpisodeMeta where
  episode_index : Int
  tasks : List String
  length : Nat
deriving DecidableEq, Repr

/-- The `episode_metadata` list, one record per episode in request order. -/
def episodeMetas (episodes : List Episode) : List EpisodeMeta :=
  episodes.map fun ep =>
    { episode_index := ep.episodeIndex
      tasks := [taskOf ep]
      length := ep.frames.length }

/-- One line of `meta/tasks.jsonl`. -/
structure TaskEntry where
  task_index : Nat
  task : String
deriving DecidableEq, Repr

/-- `for i, task in enumerate(tasks)`: indices follow the set's enumeration
order. -/
def tasksEntries (order : List String) : List TaskEntry :=
  order.enum.map fun p => { task_index := p.1, task := p.2 }

/-- The per-feature block of `info.json`. -/
structure Feature where
  dtype : String
  shape : List Nat
  names : List String
deriving DecidableEq, Repr

/-- The `meta/info.json` record. -/
structure Info where
  codebase_version : String
  robot_type : String
  fps : Nat
  total_episodes : Nat
  total_frames : Nat
  observation_state : Feature
  action : Feature
  splits_train : String
deriving DecidableEq, Repr

/-- Fixed joint-name list the code always writes. -/
def jointNames : List String :=
  ["joint_1", "joint_2", "joint_3", "joint_4", "joint_5", "gripper"]

/-- Synthesises `info.json` (lines 219-238).  Shapes come from
`all_rows[0].get(key, [])` when rows exist, else the `[6]` placeholder;
`splits.train` is built from `len(request.episodes)`. -/
def buildInfo (episodes : List Episode) (meta : DatasetMetadata) : Info :=
  { codebase_version := "v3.0"
    robot_type := meta.robotType
    fps := meta.fps
    total_episodes := episodes.length
    total_frames := totalFrames episodes
    observation_state :=
      { dtype := "float32"
        shape := match allRows episodes with
                 | [] => [6]
                 | r :: _ => [(r.observationState.getD []).length]
        names := jointNames }
    action :=
      { dtype := "float32"
        shape := match allRows episodes with
                 | [] => [6]
                 | r :: _ => [(r.action.getD []).length]
        names := jointNames }
    splits_train := "0:" ++ toString episodes.length }

/-- Everything the upload path assembles in the scratch directory before the
hand-off: the parquet columns (absent when there were no rows), `info.json`,
`episodes.jsonl` and `tasks.jsonl`. -/
structure UploadOutput where
  table : Option ColumnTable
  info : Info
  episodesJsonl : List EpisodeMeta
  tasksJsonl : List TaskEntry
deriving DecidableEq, Repr

/-- The conversion core of `upload_dataset` (lines 117-300, transport
collaborators excluded).  `order` is the iteration order the Python task set
produced.  A pyarrow failure aborts the whole request (catch-all at line
312), so no artifact set is produced in that case. -/
def upload_dataset (order : List String) (episodes : List Episode)
    (meta : DatasetMetadata) : Except ApiError UploadOutput :=
  match allRows episodes with
  | [] =>
      .ok { table := none
            info := buildInfo episodes meta
            episodesJsonl := episodeMetas episodes
            tasksJsonl := tasksEntries order }
  | r0 :: rest =>
      match buildTable r0 (r0 :: rest) with
      | .error e => .error e
      | .ok tbl =>
          .ok { table := some tbl
                info := buildInfo episodes meta
                episodesJsonl := episodeMetas episodes
                tasksJsonl := tasksEntries order }

/-! ## Direct conversion (`convert_to_parquet`, lines 316-374) -/

/-- One row dict of the direct-conversion path: no `task_index`, no image,
and the action is read from `jointPositions` only (lines 332-341). -/
structure ConvertRow where
  episode_index : Int
  frame_index : Nat
  timestamp : Rat
  observationState : Option (List Rat)
  action : Option (List Rat)
deriving DecidableEq, Repr

/-- Builds the row dict for one frame of the direct-conversion path. -/
def mkConvertRow (epIdx : Int) (frameIdx : Nat) (fr : Frame) : ConvertRow :=
  { episode_index := epIdx
    frame_index := frameIdx
    timestamp := fr.timestamp.getD ((frameIdx : Rat) / 30)
    observationState := fr.observation.jointPositions
    action := fr.action.jointPositions }

/-- The direct-conversion rows one episode contributes. -/
def convertRowsOfEpisode (ep : Episode) : List ConvertRow :=
  ep.frames.enum.map fun p => mkConvertRow ep.episodeIndex p.1 p.2

/-- `all_rows` of the direct-conversion path. -/
def convertRows (episodes : List Episode) : List ConvertRow :=
  episodes.flatMap convertRowsOfEpisode

/-- The simple columnar dict of lines 349-358: three scalar columns always;
a vector column only when the first row carries the key, its entries taken
with `r.get(key, [])` — an absent value becomes the empty list, never a
null. -/
def convertColumns (r0 : ConvertRow) (rows : List ConvertRow) : ColumnTable :=
  [("episode_index", rows.map fun r => some (Val.i r.episode_index)),
   ("frame_index", rows.map fun r => some (Val.i (r.frame_index : Int))),
   ("timestamp", rows.map fun r => some (Val.f r.timestamp))] ++
  (match r0.observationState with
   | some _ =>
       [("observation.state",
         rows.map fun r => some (Val.vec (r.observationState.getD [])))]
   | none => []) ++
  (match r0.action with
   | some _ =>
       [("action", rows.map fun r => some (Val.vec (r.action.getD [])))]
   | none => [])

/-- The table the direct-conversion path hands to the parquet writer
(meaningful only when the row list is non-empty). -/
def convertTable (episodes : List Episode) : ColumnTable :=
  match convertRows episodes with
  | [] => []
  | r0 :: rest => convertColumns r0 (r0 :: rest)

/-- Lowercase hexadecimal digits, the alphabet of Python's `bytes.hex()`. -/
def hexDigits : List Char :=
  String.data "0123456789abcdef"

/-- One byte rendered as two lowercase hex digits, high nibble first. -/
def byteHex (b : Nat) : List Char :=
  [hexDigits.getD (b / 16) '0', hexDigits.getD (b % 16) '0']

/-- Python's `bytes.hex()`: each byte becomes two lowercase hex digits. -/
def bytesHex (bs : List Nat) : String :=
  { data := bs.flatMap byteHex }

/-- The JSON body of a successful direct-conversion response.  The field is
named `parquet_base64` by the code although its payload is `.hex()` output. -/
structure ConvertResponse where
  parquet_base64 : String
  num_rows : Nat
deriving DecidableEq, Repr

/-- The conversion core of `convert_to_parquet`.  `write` abstracts the
pyarrow/parquet serialiser producing the buffer's bytes. -/
def convert_to_parquet (write : ColumnTable → List Nat)
    (episodes : List Episode) : Except ApiError ConvertResponse :=
  match convertRows episodes with
  | [] => .error .emptyInput
  | r0 :: rest =>
      .ok { parquet_base64 := bytesHex (write (convertColumns r0 (r0 :: rest)))
            num_rows := (r0 :: rest).length }

/-! ## Concrete test inputs -/

/-- A frame with no vector data. -/
def frScalar : Frame :=
  { timestamp := some 0
    observation := { jointPositions := none, image := none }
    action := { jointPositions := none, targetPositions := none } }

/-- Scenario-B episode with task text "pick" (no frames needed to register
a task). -/
def epPick : Episode :=
  { episodeIndex := 0, frames := [], languageInstruction := some "pick" }

/-- Scenario-B episode with task text "place". -/
def epPlace : Episode :=
  { episodeIndex := 1, frames := [], languageInstruction := some "place" }

/-- Episode with task "pick" and one frame. -/
def epPickF : Episode :=
  { episodeIndex := 0, frames := [frScalar], languageInstruction := some "pick" }

/-- Episode with task "place" and one frame. -/
def epPlaceF : Episode :=
  { episodeIndex := 1, frames := [frScalar], languageInstruction := some "place" }

/-- A frame whose observation and action vectors have length 6. -/
def fr6 : Frame :=
  { timestamp := some 0
    observation := { jointPositions := some [1, 2, 3, 4, 5, 6], image := none }
    action := { jointPositions := some [1, 2, 3, 4, 5, 6], targetPositions := none } }

/-- A frame whose present observation vector has length 5 and no action. -/
def fr5 : Frame :=
  { timestamp := some 1
    observation := { jointPositions := some [1, 2, 3, 4, 5], image := none }
    action := { jointPositions := none, targetPositions := none } }

/-- Scenario-D episode: first frame infers dimension 6, second frame's
present vector has length 5. -/
def epMis : Episode :=
  { episodeIndex := 0, frames := [fr6, fr5], languageInstruction := none }

/-- Episode of three scalar frames. -/
def ep3 : Episode :=
  { episodeIndex := 0, frames := [frScalar, frScalar, frScalar],
    languageInstruction := none }

/-- A frame whose action has `jointPositions` `[1, 2]`. -/
def frAct : Frame :=
  { timestamp := some 0
    observation := { jointPositions := none, image := none }
    action := { jointPositions := some [1, 2], targetPositions := none } }

/-- Two-frame episode: the first frame has an action vector, the second has
none. -/
def epC5 : Episode :=
  { episodeIndex := 0, frames := [frAct, frScalar], languageInstruction := none }

/-- A frame carrying both `jointPositions` and `targetPositions`. -/
def frBoth : Frame :=
  { timestamp := some 0
    observation := { jointPositions := none, image := none }
    action := { jointPositions := some [1], targetPositions := some [2] } }

/-- A frame carrying only `targetPositions`. -/
def frTp : Frame :=
  { timestamp := some 0
    observation := { jointPositions := none, image := none }
    action := { jointPositions := none, targetPositions := some [2] } }

/-- A fixed request metadata record. -/
def meta0 : DatasetMetadata :=
  { robotType := "so101", totalFrames := 0, totalEpisodes := 2, fps := 30 }

/-! ## Generic lemmas about the embedding -/

/-- The rows an episode contributes are one per frame. -/
theorem rowsOfEpisode_length (ep : Episode) :
    (rowsOfEpisode ep).length = ep.frames.length := by
  simp [rowsOfEpisode]

/-- The upload path emits exactly one row per frame overall. -/
theorem allRows_length (episodes : List Episode) :
    (allRows episodes).length = totalFrames episodes := by
  rw [allRows, List.length_flatMap, Function.comp_def, totalFrames]
  simp [rowsOfEpisode_length]

/-- The direct-conversion rows of one episode are one per frame. -/
theorem convertRowsOfEpisode_length (ep : Episode) :
    (convertRowsOfEpisode ep).length = ep.frames.length := by
  simp [convertRowsOfEpisode]

/-- The direct-conversion path emits exactly one row per frame overall. -/
theorem convertRows_length (episodes : List Episode) :
    (convertRows episodes).length = totalFrames episodes := by
  rw [convertRows, List.length_flatMap, Function.comp_def, totalFrames]
  simp [convertRowsOfEpisode_length]

/-- Mapping a function of the position over an enumeration is mapping it
over the index range. -/
theorem enum_map_fst_apply (l : List α) (g : Nat → β) :
    l.enum.map (fun p => g p.1) = (List.range l.length).map g := by
  have h := congrArg (List.map g) (List.enum_map_fst l)
  rw [List.map_map] at h
  exact h

/-- The task texts of `tasks.jsonl` are the enumeration order itself. -/
theorem tasksEntries_map_task (order : List String) :
    (tasksEntries order).map TaskEntry.task = order := by
  unfold tasksEntries
  rw [List.map_map]
  exact List.enum_map_snd order

/-- The task indices of `tasks.jsonl` are `0, 1, 2, …` in enumeration
order. -/
theorem tasksEntries_map_index (order : List String) :
    (tasksEntries order).map TaskEntry.task_index = List.range order.length := by
  unfold tasksEntries
  rw [List.map_map]
  exact List.enum_map_fst order

/-- The outcome of the table-building stage of the upload path, as a
standalone value: `Except.ok none` when there are no rows, otherwise the
transposition result with its possible invalid-length failure. -/
def uploadTableStage (episodes : List Episode) : Except ApiError (Option ColumnTable) :=
  match allRows episodes with
  | [] => Except.ok none
  | r0 :: rest => (buildTable r0 (r0 :: rest)).map some

/-- `upload_dataset` is the table stage followed by attaching the three
synthesised sidecars. -/
theorem upload_dataset_eq (order : List String) (episodes : List Episode)
    (meta : DatasetMetadata) :
    upload_dataset order episodes meta =
      (uploadTableStage episodes).map fun t =>
        { table := t
          info := buildInfo episodes meta
          episodesJsonl := episodeMetas episodes
          tasksJsonl := tasksEntries order } := by
  unfold upload_dataset uploadTableStage
  rcases allRows episodes with _ | ⟨r0, rest⟩
  · rfl
  · cases hB : buildTable r0 (r0 :: rest) <;> simp [hB, Except.map]

/-- Structure of any successful `upload_dataset` result: the sidecars are
the synthesised ones; the table is the table stage's result. -/
theorem upload_ok_components {order : List String} {episodes : List Episode}
    {meta : DatasetMetadata} {out : UploadOutput}
    (h : upload_dataset order episodes meta = .ok out) :
    out.info = buildInfo episodes meta ∧
    out.episodesJsonl = episodeMetas episodes ∧
    out.tasksJsonl = tasksEntries order ∧
    uploadTableStage episodes = Except.ok out.table := by
  rw [upload_dataset_eq] at h
  rcases hT : uploadTableStage episodes with e | topt
  · rw [hT] at h
    exact Except.noConfusion h
  · rw [hT] at h
    injection h with h
    subst h
    exact ⟨rfl, rfl, rfl, rfl⟩

/-- The pairs (episode_index, frame_index) of one episode's upload rows are
the episode's index paired with `0 .. len-1` in order. -/
theorem rowsOfEpisode_map_indices (ep : Episode) :
    (rowsOfEpisode ep).map (fun r => (r.episode_index, r.frame_index)) =
      (List.range ep.frames.length).map fun i => (ep.episodeIndex, i) := by
  unfold rowsOfEpisode
  rw [List.map_map]
  exact enum_map_fst_apply ep.frames fun i => (ep.episodeIndex, i)

/-- Same statement for the direct-conversion rows. -/
theorem convertRowsOfEpisode_map_indices (ep : Episode) :
    (convertRowsOfEpisode ep).map (fun r => (r.episode_index, r.frame_index)) =
      (List.range ep.frames.length).map fun i => (ep.episodeIndex, i) := by
  unfold convertRowsOfEpisode
  rw [List.map_map]
  exact enum_map_fst_apply ep.frames fun i => (ep.episodeIndex, i)

/-! ## Claim theorems -/

/-- C4: on an input of zero episodes the metadata-producing upload path
succeeds with total_episodes = 0, total_frames = 0 and the placeholder
shape `[6]` for both vector features, while the direct-conversion endpoint
rejects the same input with the empty-input failure. -/
theorem C4_empty_input_policy (meta : DatasetMetadata)
    (write : ColumnTable → List Nat) :
    (∃ out, upload_dataset [] [] meta = .ok out ∧
      out.info.total_episodes = 0 ∧ out.info.total_frames = 0 ∧
      out.info.observation_state.shape = [6] ∧ out.info.action.shape = [6]) ∧
    convert_to_parquet write [] = .error .emptyInput :=
  ⟨⟨_, rfl, rfl, rfl, rfl, rfl⟩, rfl⟩

/-- C7: in both conversion paths, each episode's rows carry frame_index
values exactly `0 .. len(frames)-1` in emission order, restarting at 0 for
each episode, with episode_index copied unchanged from the episode. -/
theorem C7_frame_index (episodes : List Episode) :
    (allRows episodes).map (fun r => (r.episode_index, r.frame_index)) =
      (episodes.flatMap fun ep =>
        (List.range ep.frames.length).map fun i => (ep.episodeIndex, i)) ∧
    (convertRows episodes).map (fun r => (r.episode_index, r.frame_index)) =
      (episodes.flatMap fun ep =>
        (List.range ep.frames.length).map fun i => (ep.episodeIndex, i)) := by
  constructor
  · rw [allRows, List.map_flatMap]
    exact congrArg (fun f => episodes.flatMap f)
      (funext fun ep => rowsOfEpisode_map_indices ep)
  · rw [convertRows, List.map_flatMap]
    exact congrArg (fun f => episodes.flatMap f)
      (funext fun ep => convertRowsOfEpisode_map_indices ep)

/-- C10: the upload path takes a row's action from `jointPositions` when
present and falls back to `targetPositions` only when it is absent; the
direct-conversion path reads only `jointPositions`, so a frame with only
`targetPositions` yields no action value there. -/
theorem C10_action_source (fr : Frame) (epIdx : Int) (frameIdx : Nat) :
    (∀ v, fr.action.jointPositions = some v →
        (mkRow epIdx frameIdx fr).action = some v) ∧
    (fr.action.jointPositions = none →
        (mkRow epIdx frameIdx fr).action = fr.action.targetPositions) ∧
    (mkConvertRow epIdx frameIdx fr).action = fr.action.jointPositions := by
  refine ⟨fun v hv => ?_, fun hn => ?_, rfl⟩
  · show selectAction fr.action = some v
    simp [selectAction, hv]
  · show selectAction fr.action = fr.action.targetPositions
    simp [selectAction, hn]

/-- Witness for C10: a frame with both entries takes `jointPositions`; a
frame with only `targetPositions` yields it in the upload path and nothing
in the direct-conversion path. -/
theorem C10_action_source_witness :
    (mkRow 0 0 frBoth).action = some [1] ∧
    (mkRow 0 0 frTp).action = some [2] ∧
    (mkConvertRow 0 0 frTp).action = none := by
  refine ⟨(C10_action_source frBoth 0 0).1 [1] rfl, ?_, ?_⟩
  · exact (C10_action_source frTp 0 0).2.1 rfl
  · exact (C10_action_source frTp 0 0).2.2

/-- C2 counterexample: with episodes "pick" then "place" (one frame each)
and the set enumerated as ["pick", "place"], the registry assigns "place"
the index 1, yet the second episode's row carries task_index 0; no registry
entry pairs "place" with 0.  The claim that each row's task_index equals
the registry index of its episode's task text is therefore false. -/
theorem C2_counterexample :
    ∃ out, upload_dataset ["pick", "place"] [epPickF, epPlaceF] meta0 = .ok out ∧
      (∃ r ∈ allRows [epPickF, epPlaceF],
          r.episode_index = 1 ∧ r.task_index = 0) ∧
      taskOf epPlaceF = "place" ∧
      { task_index := 1, task := "place" } ∈ out.tasksJsonl ∧
      ¬ ∃ te ∈ out.tasksJsonl, te.task = "place" ∧ te.task_index = 0 := by
  refine ⟨_, rfl, ?_, ?_, ?_, ?_⟩ <;> decide

/-- C2 amended: every frame row of the upload path carries the constant
task_index 0 ("Single task for now"), regardless of the task registry; it
coincides with the registry index only when the episode's task happens to
be enumerated first. -/
theorem C2_task_index_zero (episodes : List Episode) :
    ∀ r ∈ allRows episodes, r.task_index = 0 := by
  intro r hr
  rw [allRows, List.mem_flatMap] at hr
  obtain ⟨ep, _, hr⟩ := hr
  rw [rowsOfEpisode, List.mem_map] at hr
  obtain ⟨p, _, rfl⟩ := hr
  rfl

/-- Witness for the amended C2 at a concrete row. -/
theorem C2_task_index_zero_witness : (mkRow 0 0 frScalar).task_index = 0 :=
  C2_task_index_zero [epPickF] (mkRow 0 0 frScalar) (by decide)

/-- C6 counterexample: one episode of three frames gives total_frames = 3,
yet `splits.train` is written as "0:1" (from the episode count), not
"0:3".  The claim that the interval is over `[0, total_frames)` is
therefore false. -/
theorem C6_counterexample :
    ∃ out, upload_dataset ["manipulation task"] [ep3] meta0 = .ok out ∧
      totalFrames [ep3] = 3 ∧
      out.info.splits_train = "0:1" ∧
      out.info.splits_train ≠ "0:" ++ toString (totalFrames [ep3]) := by
  refine ⟨_, rfl, ?_, ?_, ?_⟩ <;> decide

/-- C6 amended: `splits.train` is the half-open interval string
`0:<total_episodes>` — the episode count, not the frame count. -/
theorem C6_splits_train (order : List String) (episodes : List Episode)
    (meta : DatasetMetadata) (out : UploadOutput)
    (h : upload_dataset order episodes meta = .ok out) :
    out.info.splits_train = "0:" ++ toString episodes.length := by
  rw [(upload_ok_components h).1]
  rfl

/-- Witness for the amended C6 at a concrete input. -/
theorem C6_splits_train_witness :
    (buildInfo [ep3] meta0).splits_train =
      "0:" ++ toString ([ep3] : List Episode).length :=
  C6_splits_train ["manipulation task"] [ep3] meta0 _ rfl

/-- C1 counterexample: the task set's iteration order is unconstrained, and
with episodes "pick" then "place" the legitimate enumeration
["place", "pick"] produces tasks.jsonl entries ⟨0, "place"⟩, ⟨1, "pick"⟩ —
NOT the first-seen assignment in which "pick" gets index 0.  The claim as
stated is therefore false. -/
theorem C1_counterexample :
    ¬ (∀ order : List String,
        List.Perm order (firstSeenTasks [epPick, epPlace]) →
        ∀ out, upload_dataset order [epPick, epPlace] meta0 = .ok out →
          out.tasksJsonl = tasksEntries (firstSeenTasks [epPick, epPlace])) := by
  intro h
  have h2 := h ["place", "pick"] (by decide) _ rfl
  exact absurd h2 (by decide)

/-- C1 amended: tasks.jsonl contains one entry per distinct task text with
indices 0, 1, 2, … assigned in the set's enumeration order — an arbitrary
permutation of the distinct texts, so first-seen order is not guaranteed
(it holds only when the enumeration happens to preserve it, e.g. with at
most one distinct task). -/
theorem C1_tasks_enumeration (order : List String) (episodes : List Episode)
    (meta : DatasetMetadata) (out : UploadOutput)
    (hord : List.Perm order (firstSeenTasks episodes))
    (h : upload_dataset order episodes meta = .ok out) :
    List.Perm (out.tasksJsonl.map TaskEntry.task) (firstSeenTasks episodes) ∧
    out.tasksJsonl.map TaskEntry.task_index =
      List.range (firstSeenTasks episodes).length := by
  have ht := (upload_ok_components h).2.2.1
  constructor
  · rw [ht, tasksEntries_map_task]
    exact hord
  · rw [ht, tasksEntries_map_index, List.Perm.length_eq hord]

/-- Witness for the amended C1 at a concrete input. -/
theorem C1_tasks_enumeration_witness :
    List.Perm ((tasksEntries ["place", "pick"]).map TaskEntry.task)
        (firstSeenTasks [epPick, epPlace]) ∧
    (tasksEntries ["place", "pick"]).map TaskEntry.task_index =
      List.range (firstSeenTasks [epPick, epPlace]).length :=
  C1_tasks_enumeration ["place", "pick"] [epPick, epPlace] meta0 _ (by decide) rfl

/-- C8 counterexample: two runs over the identical ordered episode list,
each with a legitimate iteration order of the task set, can produce
different tasks.jsonl contents — the two-run determinism claim is false. -/
theorem C8_counterexample :
    ∃ out₁ out₂,
      upload_dataset ["pick", "place"] [epPick, epPlace] meta0 = .ok out₁ ∧
      upload_dataset ["place", "pick"] [epPick, epPlace] meta0 = .ok out₂ ∧
      List.Perm ["pick", "place"] (firstSeenTasks [epPick, epPlace]) ∧
      List.Perm ["place", "pick"] (firstSeenTasks [epPick, epPlace]) ∧
      out₁.tasksJsonl ≠ out₂.tasksJsonl := by
  refine ⟨_, _, rfl, rfl, ?_, ?_, ?_⟩ <;> decide

/-- C8 amended: across two runs over the same ordered episode list, the
table (hence every per-row task_index), info.json and episodes.jsonl are
identical; tasks.jsonl agrees up to permutation of entries, and is
identical exactly when the two runs' set enumerations coincide. -/
theorem C8_two_run (episodes : List Episode) (meta : DatasetMetadata)
    (order₁ order₂ : List String) (out₁ out₂ : UploadOutput)
    (h₁ : upload_dataset order₁ episodes meta = .ok out₁)
    (h₂ : upload_dataset order₂ episodes meta = .ok out₂)
    (hp₁ : List.Perm order₁ (firstSeenTasks episodes))
    (hp₂ : List.Perm order₂ (firstSeenTasks episodes)) :
    out₁.table = out₂.table ∧
    out₁.info = out₂.info ∧
    out₁.episodesJsonl = out₂.episodesJsonl ∧
    List.Perm (out₁.tasksJsonl.map TaskEntry.task)
      (out₂.tasksJsonl.map TaskEntry.task) ∧
    (order₁ = order₂ → out₁.tasksJsonl = out₂.tasksJsonl) := by
  obtain ⟨hi₁, he₁, ht₁, hT₁⟩ := upload_ok_components h₁
  obtain ⟨hi₂, he₂, ht₂, hT₂⟩ := upload_ok_components h₂
  refine ⟨Except.ok.inj (hT₁.symm.trans hT₂), hi₁.trans hi₂.symm,
    he₁.trans he₂.symm, ?_, ?_⟩
  · rw [ht₁, ht₂, tasksEntries_map_task, tasksEntries_map_task]
    exact hp₁.trans hp₂.symm
  · intro he
    rw [ht₁, ht₂, he]

/-- Witness for the amended C8: two concrete runs with different set
enumerations still list the same task texts up to permutation. -/
theorem C8_two_run_witness :
    List.Perm ((tasksEntries ["pick", "place"]).map TaskEntry.task)
      ((tasksEntries ["place", "pick"]).map TaskEntry.task) := by
  have h := C8_two_run [epPick, epPlace] meta0 ["pick", "place"]
      ["place", "pick"] _ _ rfl rfl (by decide) (by decide)
  exact h.2.2.2.1

/-- A cell passes the fixed-size-list check exactly when any vector it
holds has the declared length. -/
theorem entryOk_eq_true_iff (dim : Nat) (e : Option Val) :
    entryOk dim e = true ↔ ∀ v, e = some (Val.vec v) → v.length = dim := by
  cases e with
  | none => simp [entryOk]
  | some val => cases val <;> simp [entryOk]

/-- A cell fails the fixed-size-list check exactly when it holds a vector
of the wrong length. -/
theorem entryOk_eq_false_iff (dim : Nat) (e : Option Val) :
    entryOk dim e = false ↔ ∃ v, e = some (Val.vec v) ∧ v.length ≠ dim := by
  cases e with
  | none => simp [entryOk]
  | some val => cases val <;> simp [entryOk]

/-- The transposition stage raises the invalid-length error exactly when
some row holds, for some inferred vector field, a present vector whose
length differs from the inferred dimension. -/
theorem buildTable_error_iff (sample : Row) (rows : List Row) :
    buildTable sample rows = .error .arrowInvalidLength ↔
      ∃ p ∈ vecFields sample, ∃ r ∈ rows, ∃ v,
        r.getField p.1 = some (Val.vec v) ∧ v.length ≠ p.2 := by
  unfold buildTable
  split
  next hall =>
    apply iff_of_false (by simp)
    rintro ⟨p, hp, r, hr, v, hv, hne⟩
    have h1 := List.all_eq_true.mp hall p hp
    rw [checkFixedList, List.all_eq_true] at h1
    have h2 := h1 (r.getField p.1)
      (List.mem_map_of_mem (fun r => r.getField p.1) hr)
    exact hne ((entryOk_eq_true_iff _ _).mp h2 v hv)
  next hall =>
    apply iff_of_true rfl
    rw [List.all_eq_true] at hall
    push_neg at hall
    obtain ⟨p, hp, hcf⟩ := hall
    rw [Ne, Bool.not_eq_true, checkFixedList, List.all_eq_false] at hcf
    obtain ⟨e, he, hno⟩ := hcf
    rw [column, List.mem_map] at he
    obtain ⟨r, hr, rfl⟩ := he
    rw [Bool.not_eq_true] at hno
    obtain ⟨v, hv, hne⟩ := (entryOk_eq_false_iff _ _).mp hno
    exact ⟨p, hp, r, hr, v, hv, hne⟩

/-- When rows exist, the whole upload request fails with the invalid-length
error exactly when the transposition stage does. -/
theorem upload_error_iff (order : List String) (episodes : List Episode)
    (meta : DatasetMetadata) (r0 : Row) (rest : List Row)
    (h : allRows episodes = r0 :: rest) :
    upload_dataset order episodes meta = .error .arrowInvalidLength ↔
      buildTable r0 (r0 :: rest) = .error .arrowInvalidLength := by
  rw [upload_dataset_eq]
  have hs : uploadTableStage episodes = (buildTable r0 (r0 :: rest)).map some := by
    unfold uploadTableStage
    rw [h]
  rw [hs]
  rcases buildTable r0 (r0 :: rest) with e | tbl
  · cases e <;> simp [Except.map]
  · simp [Except.map]

/-- C3 counterexample: an input whose first row infers observation
dimension 6 while a later row's present observation vector has length 5
(the Scenario-D shape) does NOT make the direct-conversion path fail: it
succeeds and emits a table whose observation column carries both the
6-vector and the 5-vector.  The claim that every such input fails with a
typed SchemaMismatch and no table is therefore false — no SchemaMismatch
error exists and the direct path performs no length check at all. -/
theorem C3_counterexample :
    ((convertRows [epMis]).map (fun r => r.observationState.map List.length) =
      [some 6, some 5]) ∧
    convert_to_parquet (fun _ => []) [epMis] =
      .ok { parquet_base64 := bytesHex [], num_rows := 2 } ∧
    ("observation.state",
        [some (Val.vec [1, 2, 3, 4, 5, 6]), some (Val.vec [1, 2, 3, 4, 5])]) ∈
      convertTable [epMis] :=
  ⟨by decide, rfl, by decide⟩

/-- C3 amended: in the upload path a present vector whose length differs
from the first-row-inferred dimension makes the request fail — but with the
untyped pyarrow invalid-length error surfaced as a generic 500, not a typed
SchemaMismatch — and exactly then (no mismatch, no such failure); the
direct-conversion path performs no dimension check and succeeds on every
non-empty input. -/
theorem C3_schema_mismatch (order : List String) (episodes : List Episode)
    (meta : DatasetMetadata) (r0 : Row) (rest : List Row)
    (h : allRows episodes = r0 :: rest) :
    (upload_dataset order episodes meta = .error .arrowInvalidLength ↔
      ∃ p ∈ vecFields r0, ∃ r ∈ allRows episodes, ∃ v,
        r.getField p.1 = some (Val.vec v) ∧ v.length ≠ p.2) ∧
    ∀ (write : ColumnTable → List Nat) (eps : List Episode),
      convertRows eps ≠ [] → ∃ resp, convert_to_parquet write eps = .ok resp := by
  constructor
  · rw [h]
    exact (upload_error_iff order episodes meta r0 rest h).trans
      (buildTable_error_iff r0 (r0 :: rest))
  · intro write eps hne
    rcases hc : convertRows eps with _ | ⟨c0, crest⟩
    · exact absurd hc hne
    · refine ⟨{ parquet_base64 := bytesHex (write (convertColumns c0 (c0 :: crest)))
                num_rows := (c0 :: crest).length }, ?_⟩
      unfold convert_to_parquet
      rw [hc]

/-- Witness for the amended C3: the Scenario-D input makes the upload path
fail with the invalid-length error, while the direct path converts a
non-empty input successfully. -/
theorem C3_schema_mismatch_witness :
    upload_dataset ["manipulation task"] [epMis] meta0 =
      .error .arrowInvalidLength ∧
    ∃ resp, convert_to_parquet (fun _ => [7]) [epMis] = .ok resp := by
  have h := C3_schema_mismatch ["manipulation task"] [epMis] meta0
      (mkRow 0 0 fr6) [mkRow 0 1 fr5] rfl
  refine ⟨h.1.mpr ?_, h.2 (fun _ => [7]) [epMis] (by decide)⟩
  exact ⟨("observation.state", 6), by decide, mkRow 0 1 fr5, by decide,
    [1, 2, 3, 4, 5], by decide, by decide⟩

/-- Shape of any successful transposition result: the kept fields, each
paired with its transposed column. -/
theorem buildTable_ok_shape (sample : Row) (rows : List Row) (tbl : ColumnTable)
    (h : buildTable sample rows = .ok tbl) :
    tbl = ((scalarFieldNames ++ (vecFields sample).map Prod.fst).filter
            (fun n => !(column rows n).isEmpty)).map fun n => (n, column rows n) := by
  unfold buildTable at h
  split at h
  · injection h with h
    exact h.symm
  · exact Except.noConfusion h

/-- Every column of a successful transposition has one entry per row. -/
theorem buildTable_column_lengths (sample : Row) (rows : List Row)
    (tbl : ColumnTable) (h : buildTable sample rows = .ok tbl) :
    ∀ c ∈ tbl, c.2.length = rows.length := by
  rw [buildTable_ok_shape sample rows tbl h]
  intro c hc
  rw [List.mem_map] at hc
  obtain ⟨n, _, rfl⟩ := hc
  simp [column]

/-- In a successful transposition, a row with no observation vector
contributes an explicit null cell to the observation column. -/
theorem buildTable_obs_null (sample : Row) (rows : List Row)
    (tbl : ColumnTable) (h : buildTable sample rows = .ok tbl) (i : Nat)
    (r : Row) (hi : rows[i]? = some r) (hnone : r.observationState = none) :
    ∀ col, ("observation.state", col) ∈ tbl → col[i]? = some none := by
  intro col hcol
  rw [buildTable_ok_shape sample rows tbl h, List.mem_map] at hcol
  obtain ⟨n, _, heq⟩ := hcol
  injection heq with h1 h2
  subst h1
  subst h2
  rw [column, List.getElem?_map, hi]
  simp [Row.getField, hnone]

/-- Every column the direct-conversion path builds from a first row has one
entry per row. -/
theorem convertColumns_column_lengths (c0 : ConvertRow)
    (rows : List ConvertRow) :
    ∀ c ∈ convertColumns c0 rows, c.2.length = rows.length := by
  intro c hc
  unfold convertColumns at hc
  rcases List.mem_append.mp hc with h1 | hact
  · rcases List.mem_append.mp h1 with hsc | hobs
    · simp only [List.mem_cons, List.not_mem_nil, or_false] at hsc
      rcases hsc with rfl | rfl | rfl <;> simp
    · rcases ho : c0.observationState with _ | v
      · rw [ho] at hobs
        simp at hobs
      · rw [ho] at hobs
        simp only [List.mem_singleton] at hobs
        subst hobs
        simp
  · rcases ha : c0.action with _ | v
    · rw [ha] at hact
      simp at hact
    · rw [ha] at hact
      simp only [List.mem_singleton] at hact
      subst hact
      simp

/-- Every column of the table built by the direct-conversion path has
length equal to the total frame count. -/
theorem convertTable_column_lengths (episodes : List Episode) :
    ∀ c ∈ convertTable episodes, c.2.length = totalFrames episodes := by
  intro c hc
  rw [← convertRows_length]
  unfold convertTable at hc
  rcases hr : convertRows episodes with _ | ⟨c0, crest⟩
  · rw [hr] at hc
    simp at hc
  · rw [hr] at hc
    exact convertColumns_column_lengths c0 (c0 :: crest) c hc

/-- C5 counterexample: in the direct-conversion path a row whose action is
absent contributes an empty-list cell, not a null cell: with a two-frame
episode whose second frame has no action, the action column's second entry
is `some (Val.vec [])`, so the claim that an absent field value becomes an
explicit null entry is false for that path. -/
theorem C5_counterexample :
    ((convertRows [epC5]).map ConvertRow.action = [some [1, 2], none]) ∧
    ¬ (∀ col, ("action", col) ∈ convertTable [epC5] → col[1]? = some none) := by
  constructor
  · decide
  · intro hcl
    exact absurd
      (hcl [some (Val.vec [1, 2]), some (Val.vec [])] (by decide)) (by decide)

/-- C5 amended: in both paths every column of the built table has length
equal to the total frame count; an absent field value becomes an explicit
null cell in the upload path, but in the direct-conversion path an absent
vector value becomes an empty-list cell (the length invariant still
holds). -/
theorem C5_column_lengths (order : List String) (episodes : List Episode)
    (meta : DatasetMetadata) (r0 : Row) (rest : List Row) (out : UploadOutput)
    (tbl : ColumnTable) (h : allRows episodes = r0 :: rest)
    (hok : upload_dataset order episodes meta = .ok out)
    (htbl : out.table = some tbl) :
    (∀ c ∈ tbl, c.2.length = totalFrames episodes) ∧
    (∀ (i : Nat) (r : Row), (allRows episodes)[i]? = some r →
        r.observationState = none →
        ∀ col, ("observation.state", col) ∈ tbl → col[i]? = some none) ∧
    (∀ c ∈ convertTable episodes, c.2.length = totalFrames episodes) := by
  have hT := (upload_ok_components hok).2.2.2
  rw [htbl] at hT
  have hB : buildTable r0 (r0 :: rest) = .ok tbl := by
    unfold uploadTableStage at hT
    rw [h] at hT
    have hT2 : Except.map some (buildTable r0 (r0 :: rest)) =
        Except.ok (some tbl) := hT
    rcases hb : buildTable r0 (r0 :: rest) with e | tbl2
    · rw [hb] at hT2
      exact Except.noConfusion hT2
    · rw [hb] at hT2
      have hT3 : Except.ok (some tbl2) =
          (Except.ok (some tbl) : Except ApiError (Option ColumnTable)) := hT2
      injection hT3 with hT3
      injection hT3 with hT3
      rw [hT3]
  refine ⟨?_, ?_, convertTable_column_lengths episodes⟩
  · intro c hc
    rw [buildTable_column_lengths _ _ _ hB c hc, ← h, allRows_length]
  · intro i r hi hnone col hcol
    exact buildTable_obs_null _ _ _ hB i r (h ▸ hi) hnone col hcol

/-- Witness for the amended C5 at a concrete input: both the upload table's
action column and the direct table's episode_index column have one entry
per frame. -/
theorem C5_column_lengths_witness :
    (("action", [some (Val.vec [1, 2]), none]) :
        String × List (Option Val)).2.length = totalFrames [epC5] ∧
    (("episode_index", [some (Val.i 0), some (Val.i 0)]) :
        String × List (Option Val)).2.length = totalFrames [epC5] := by
  have h := C5_column_lengths ["manipulation task"] [epC5] meta0 _ _ _ _
      rfl rfl rfl
  exact ⟨h.1 _ (by decide), h.2.2 _ (by decide)⟩

/-! ## Hex encoding facts for C9 -/

/-- Value of a hex digit: its position in the hex alphabet. -/
def hexVal (c : Char) : Nat := hexDigits.indexOf c

/-- Decodes consecutive pairs of hex digits back into byte values. -/
def hexDecode : List Char → List Nat
  | c1 :: c2 :: rest => (16 * hexVal c1 + hexVal c2) :: hexDecode rest
  | _ => []

/-- Decoding the two hex digits of a byte recovers the byte. -/
theorem byteHex_decode : ∀ b < 256,
    16 * hexVal (hexDigits.getD (b / 16) '0') +
      hexVal (hexDigits.getD (b % 16) '0') = b := by decide

/-- The hex rendering of a byte list has exactly two characters per byte. -/
theorem flatMap_byteHex_length (bs : List Nat) :
    (bs.flatMap byteHex).length = 2 * bs.length := by
  induction bs with
  | nil => rfl
  | cons b rest ih =>
      rw [List.flatMap_cons, List.length_append, ih]
      show 2 + 2 * rest.length = 2 * (rest.length + 1)
      omega

/-- The hex string of a byte list has exactly two characters per byte. -/
theorem bytesHex_length (bs : List Nat) :
    (bytesHex bs).length = 2 * bs.length :=
  flatMap_byteHex_length bs

/-- Hex-decoding the hex rendering of a byte list recovers it exactly. -/
theorem hexDecode_flatMap (bs : List Nat) :
    (∀ b ∈ bs, b < 256) → hexDecode (bs.flatMap byteHex) = bs := by
  induction bs with
  | nil => intro _; rfl
  | cons b rest ih =>
      intro hb
      rw [List.flatMap_cons]
      show (16 * hexVal (hexDigits.getD (b / 16) '0') +
          hexVal (hexDigits.getD (b % 16) '0')) ::
          hexDecode (rest.flatMap byteHex) = b :: rest
      rw [ih fun x hx => hb x (List.mem_cons_of_mem b hx),
        byteHex_decode b (hb b (List.mem_cons_self b rest))]

/-- C9: on success the direct-conversion response's `parquet_base64` field
holds the table bytes rendered in hexadecimal — exactly two hex characters
per byte, recoverable by hex decoding, hence not base64 — and `num_rows`
equals the total frame count across all episodes. -/
theorem C9_hex_encoding (write : ColumnTable → List Nat)
    (episodes : List Episode) (r0 : ConvertRow) (rest : List ConvertRow)
    (h : convertRows episodes = r0 :: rest)
    (hb : ∀ b ∈ write (convertTable episodes), b < 256) :
    convert_to_parquet write episodes =
      .ok { parquet_base64 := bytesHex (write (convertTable episodes))
            num_rows := totalFrames episodes } ∧
    (bytesHex (write (convertTable episodes))).length =
      2 * (write (convertTable episodes)).length ∧
    hexDecode (bytesHex (write (convertTable episodes))).data =
      write (convertTable episodes) := by
  have htab : convertTable episodes = convertColumns r0 (r0 :: rest) := by
    unfold convertTable
    rw [h]
  have hlen : (r0 :: rest).length = totalFrames episodes := by
    rw [← h, convertRows_length]
  refine ⟨?_, bytesHex_length _, hexDecode_flatMap _ hb⟩
  unfold convert_to_parquet
  rw [h]
  have hgoal :
      (Except.ok { parquet_base64 := bytesHex (write (convertColumns r0 (r0 :: rest)))
                   num_rows := (r0 :: rest).length } :
        Except ApiError ConvertResponse) =
      .ok { parquet_base64 := bytesHex (write (convertTable episodes))
            num_rows := totalFrames episodes } := by
    rw [htab, hlen]
  exact hgoal

/-- Witness for C9 at a concrete input and byte list. -/
theorem C9_hex_encoding_witness :
    convert_to_parquet (fun _ => [0, 255, 16]) [epC5] =
      .ok { parquet_base64 := bytesHex [0, 255, 16]
            num_rows := totalFrames [epC5] } ∧
    bytesHex [0, 255, 16] = "00ff10" ∧
    hexDecode (bytesHex [0, 255, 16]).data = [0, 255, 16] := by
  have h := C9_hex_encoding (fun _ => [0, 255, 16]) [epC5] _ _ rfl (by decide)
  exact ⟨h.1, by decide, h.2.2⟩

end RoboSim
